import Mathlib

/-!
Verification of the cmd-a chat frontend and its sync/retrieval design.

The definitions below are shallow embeddings of the TypeScript sources:
the chat stream message handler (ChatInterface), the WebSocket service
wrappers (ChatWebSocketService, WebSocketService), the chat completion
request builder (handleSend), and the data model in types.ts.  Parts of
the backend (sync worker pool, hybrid retriever, chat orchestrator) are
not present in the frontend sources; those are modelled from the spec
and are marked as such in their doc comments.
-/

/-- An event frame of the chat completion stream: the parsed JSON object
with a type tag and a content payload, as consumed by the onMessage
handler in ChatInterface. -/
structure StreamEvent where
  type : String
  content : String
deriving DecidableEq, Repr

/-- SimplifiedMessage from frontend/src/components/chat/types.ts, generic
over the citation value type alpha (the result of JSON.parse on a
citation event's content). -/
structure SimplifiedMessage (α : Type) where
  role : String
  content : String
  citations : Option (List α) := none
deriving DecidableEq, Repr

/-- The streaming-related state of the ChatInterface component: the two
accumulator refs, the chat message list, the in-flight assistant message,
its citations, and the loading flag. -/
structure ChatState (α : Type) where
  assistantContentRef : String
  assistantCitationsRef : List α
  chatMessages : Option (List (SimplifiedMessage α))
  assistantMessage : Option (SimplifiedMessage α)
  assistantMessageCitations : Option (List α)
  isLoading : Bool
deriving DecidableEq, Repr

namespace ChatInterface

/-- The onMessage callback registered by ChatInterface via
chatWs.setOnMessage (ChatActionsMenu.tsx, ChatInterface, lines 190-230).
JSON.parse on a citation event's content is modelled by the parameter
`parse`; a parse failure returns `Except.error`, modelling the thrown
exception. -/
def onMessage (parse : String → Option α) (st : ChatState α)
    (data : StreamEvent) : Except String (ChatState α) :=
  if data.type = "token" then
    if data.content ≠ "done" then
      let c := st.assistantContentRef ++ data.content
      Except.ok { st with
        assistantContentRef := c,
        assistantMessage := some { role := "assistant", content := c } }
    else
      Except.ok st
  else
    if data.content ≠ "done" then
      match parse data.content with
      | none => Except.error "JSON parse error"
      | some v =>
          let cs := st.assistantCitationsRef ++ [v]
          Except.ok { st with
            assistantCitationsRef := cs,
            assistantMessageCitations := some cs }
    else
      let finalMessage : SimplifiedMessage α :=
        { role := "assistant",
          content := st.assistantContentRef,
          citations := some st.assistantCitationsRef }
      Except.ok { st with
        chatMessages := some ((st.chatMessages.getD []) ++ [finalMessage]),
        assistantMessageCitations := none,
        assistantMessage := none,
        isLoading := false,
        assistantContentRef := "",
        assistantCitationsRef := [] }

/-- Processing a sequence of successfully delivered stream events through
the onMessage handler, propagating the first uncaught parse exception. -/
def processEvents (parse : String → Option α) :
    ChatState α → List StreamEvent → Except String (ChatState α)
  | st, [] => Except.ok st
  | st, e :: es =>
    match onMessage parse st e with
    | Except.ok st₁ => processEvents parse st₁ es
    | Except.error msg => Except.error msg

end ChatInterface

/-- readyState values of a browser WebSocket. -/
inductive WsReadyState where
  | CONNECTING
  | OPEN
  | CLOSING
  | CLOSED
deriving DecidableEq, Repr

/-- The underlying WebSocket object: its readyState and the frames that
have actually been transmitted on the wire by `ws.send`. -/
structure WebSocketConn where
  readyState : WsReadyState
  wire : List String
deriving DecidableEq, Repr

namespace ChatWebSocketService

/-- ChatWebSocketService.send (part_014 lines 24-28): serialize and
transmit only when the socket exists and its readyState is OPEN;
otherwise do nothing (no buffering, no error). `stringify` models
JSON.stringify. -/
def send (stringify : μ → String) (ws : Option WebSocketConn) (data : μ) :
    Option WebSocketConn :=
  match ws with
  | some w =>
      if w.readyState = WsReadyState.OPEN then
        some { w with wire := w.wire ++ [stringify data] }
      else
        some w
  | none => none

/-- The ws.onmessage handler installed by ChatWebSocketService.setOnMessage
(part_014 lines 31-42): JSON.parse the raw frame (modelled by
`parseFrame`) and invoke the registered onMessage callback, catching and
logging any exception - including one thrown inside the callback - so
that the state is left unchanged on error. -/
def onmessage (parseFrame : String → Option StreamEvent)
    (parse : String → Option α) (st : ChatState α) (raw : String) :
    ChatState α :=
  match parseFrame raw with
  | none => st
  | some data =>
    match ChatInterface.onMessage parse st data with
    | Except.ok st₁ => st₁
    | Except.error _ => st

end ChatWebSocketService

namespace WebSocketService

/-- WebSocketService.send (part_015 lines 39-43): identical guard - the
message is serialized and transmitted only when the socket exists and is
OPEN, and silently discarded otherwise. -/
def send (stringify : μ → String) (ws : Option WebSocketConn) (data : μ) :
    Option WebSocketConn :=
  match ws with
  | some w =>
      if w.readyState = WsReadyState.OPEN then
        some { w with wire := w.wire ++ [stringify data] }
      else
        some w
  | none => none

end WebSocketService

/-- The chat completion request built and sent over the chat websocket by
handleSend (ChatActionsMenu.tsx, ChatInterface, lines 246-253).  The
model selection resolves to three fields (name, secret slug, provider)
and the allowed integrations travel as `integration_ids`. -/
structure ChatCompletionInput where
  chat_id : String
  chat_model_name : String
  chat_model_secret_slug : String
  chat_model_provider : String
  query : String
  integration_ids : Option (List String)
deriving DecidableEq, Repr

/-- The context values read by ChatInterface: the chat id route parameter
(the component is mounted only under /dashboard/c/:id, so the id is
present) and the selections from the ChatContext. -/
structure ChatInterfaceCtx where
  id : String
  selectedChatModelName : String
  selectedChatModelSecretName : String
  selectedChatModelProvider : String
  selectedChatIntegrations : Option (List String)
deriving DecidableEq, Repr

/-- The visible effects of one handleSend call: the cleared input, the
updated message list, the loading flag and the frame handed to
chatWs.send (none when nothing was sent). -/
structure HandleSendResult (α : Type) where
  inputState : String
  chatMessages : Option (List (SimplifiedMessage α))
  isLoading : Bool
  sent : Option ChatCompletionInput
deriving DecidableEq, Repr

namespace ChatInterface

/-- handleSend (ChatActionsMenu.tsx lines 236-255): an empty query
returns immediately; otherwise the input is cleared, the user message is
appended, loading is set, and the chat completion input is sent. -/
def handleSend (ctx : ChatInterfaceCtx) (st : ChatState α)
    (inputState : String) (isLoading : Bool) (userQuery : String) :
    HandleSendResult α :=
  if userQuery = "" then
    { inputState := inputState,
      chatMessages := st.chatMessages,
      isLoading := isLoading,
      sent := none }
  else
    { inputState := "",
      chatMessages :=
        some ((st.chatMessages.getD []) ++
          [{ role := "user", content := userQuery }]),
      isLoading := true,
      sent := some
        { chat_id := ctx.id,
          chat_model_name := ctx.selectedChatModelName,
          chat_model_secret_slug := ctx.selectedChatModelSecretName,
          chat_model_provider := ctx.selectedChatModelProvider,
          query := userQuery,
          integration_ids := ctx.selectedChatIntegrations } }

end ChatInterface

/-- IntegrationStatus from frontend/src/types.ts lines 19-25: the five
sync status values. -/
inductive IntegrationStatus where
  | NOT_STARTED
  | QUEUED
  | RUNNING
  | SUCCESS
  | FAILED
deriving DecidableEq, Repr

/-- The string value of each IntegrationStatus member in types.ts. -/
def IntegrationStatus.value : IntegrationStatus → String
  | NOT_STARTED => "not_started"
  | QUEUED => "queued"
  | RUNNING => "running"
  | SUCCESS => "success"
  | FAILED => "failed"

/-- IntegrationResponseModel from frontend/src/types.ts lines 65-75. -/
structure IntegrationResponseModel where
  id : String
  name : String
  type : String
  status : IntegrationStatus
  last_run : Option String
  is_active : Bool
  refresh_schedule : String
  user_id : String
  secret_id : String
deriving DecidableEq, Repr

/-- ParentGroupDataResponseModel from frontend/src/types.ts lines 84-96. -/
structure ParentGroupDataResponseModel where
  id : String
  created_at : String
  parent_group_id : String
  name : String
  type : String
  record_count : Nat
  node_count : Nat
  edge_count : Nat
  status : IntegrationStatus
  last_run : String
  integration_id : String
deriving DecidableEq, Repr

/-- Modelled from the spec: the per-ParentGroup sync status state machine
of section 4.2 (the sync worker pool is a backend component not present
in the frontend sources).  `nextStatuses s` lists the statuses reachable
from `s` in one transition of a sync cycle. -/
def nextStatuses : IntegrationStatus → List IntegrationStatus
  | IntegrationStatus.NOT_STARTED => [IntegrationStatus.QUEUED]
  | IntegrationStatus.QUEUED => [IntegrationStatus.RUNNING]
  | IntegrationStatus.RUNNING =>
      [IntegrationStatus.SUCCESS, IntegrationStatus.FAILED]
  | IntegrationStatus.SUCCESS => [IntegrationStatus.QUEUED]
  | IntegrationStatus.FAILED => [IntegrationStatus.QUEUED]

/-- TextNode from frontend/src/types.ts lines 135-143: the client-side
representation of a graph Node, as carried inside a Citation. -/
structure TextNode where
  id : String
  labels : List String
  source : String
  ts : String
  url : String
  display_name : String
  reactions : String
deriving DecidableEq, Repr

/-- The field names of the TextNode interface declaration in types.ts, in
declaration order. -/
def TextNode.fieldNames : List String :=
  ["id", "labels", "source", "ts", "url", "display_name", "reactions"]

/-- The Node field set asserted by the spec's data model (section 3). -/
def specNodeFieldNames : List String :=
  ["id", "labels", "source", "ts", "url", "display_name", "content_hash"]

/-- Modelled from the spec: a worker's claim of a sync job by an atomic
compare-and-set of the shared ParentGroup status QUEUED to RUNNING
(sections 4.2, 5 and 8; the worker pool is a backend component not
present in the frontend sources).  Returns the new status and whether
this attempt won the claim. -/
def casClaim (s : IntegrationStatus) : IntegrationStatus × Bool :=
  if s = IntegrationStatus.QUEUED then (IntegrationStatus.RUNNING, true)
  else (s, false)

/-- Modelled from the spec: any number of concurrent claim attempts on
the same ParentGroup, serialized by the atomicity of the CAS into a
sequence of casClaim operations.  Returns the final status and the
number of attempts that won. -/
def runClaims : IntegrationStatus → Nat → IntegrationStatus × Nat
  | s, 0 => (s, 0)
  | s, n + 1 =>
    let r := casClaim s
    let rest := runClaims r.1 n
    (rest.1, if r.2 then rest.2 + 1 else rest.2)

/-- Modelled from the spec: assignment of citation numbers in first-use
order of the generated answer (sections 3 and 4.4 step 5; the answer
generator is a backend component not present in the frontend sources).
The table maps an already-cited node reference to its assigned number; a
repeated reference reuses its number, a fresh reference receives the
next number. -/
def citationNumbersAux (table : List (String × Nat)) :
    List String → List Nat
  | [] => []
  | r :: rs =>
    match table.lookup r with
    | some n => n :: citationNumbersAux table rs
    | none =>
        (table.length + 1) ::
          citationNumbersAux (table ++ [(r, table.length + 1)]) rs

/-- Modelled from the spec: citation numbers for the sequence of node
references of a generated answer, in first-use order with reuse on
repeat. -/
def citationNumbers (answerRefs : List String) : List Nat :=
  citationNumbersAux [] answerRefs

/-- An entry of the vector index as seen at query time: a node id, the
integration that owns the node, and its payload.  Modelled from the
spec's vector store interface (section 6); entries are assumed listed in
descending similarity order for the current query. -/
structure IndexedNode where
  node_id : String
  integration_id : String
  payload : String
deriving DecidableEq, Repr

/-- The stores consulted by the Hybrid Retriever: the ranked vector index
and the graph edge list.  Modelled from the spec (section 4.4); the
retriever is a backend component not present in the frontend sources. -/
structure RetrievalStore where
  vectorIndex : List IndexedNode
  edges : List (String × String)
deriving DecidableEq, Repr

/-- Modelled from the spec: top-K nearest-neighbor search restricted to
the allowed integrations (section 4.4 step 2 - the tenant/selection
filter is mandatory). -/
def vectorQuery (store : RetrievalStore) (allowed : List String)
    (topK : Nat) : List IndexedNode :=
  (store.vectorIndex.filter
    (fun n => decide (n.integration_id ∈ allowed))).take topK

/-- Modelled from the spec: bounded graph expansion around a seed hit
(section 4.4 step 3), restricted to the allowed integrations so that
queries never leak across unselected integrations. -/
def graphNeighbors (store : RetrievalStore) (allowed : List String)
    (seed : IndexedNode) : List IndexedNode :=
  store.vectorIndex.filter
    (fun m =>
      decide ((seed.node_id, m.node_id) ∈ store.edges) &&
      decide (m.integration_id ∈ allowed))

/-- Graph expansion of every seed hit, grouped by the seed that produced
it (section 4.4 step 4). -/
def expandAll (store : RetrievalStore) (allowed : List String) :
    List IndexedNode → List IndexedNode
  | [] => []
  | h :: rest => graphNeighbors store allowed h ++ expandAll store allowed rest

/-- Deduplication of the merged candidate set by node id, keeping the
first occurrence (section 4.4 step 4). -/
def dedupById : List IndexedNode → List String → List IndexedNode
  | [], _ => []
  | n :: rest, seen =>
    if n.node_id ∈ seen then dedupById rest seen
    else n :: dedupById rest (n.node_id :: seen)

/-- Modelled from the spec: the Hybrid Retriever's candidate set for one
query - vector hits first, then graph-expanded hits, deduplicated by
node id (section 4.4). -/
def retrieve (store : RetrievalStore) (allowed : List String)
    (topK : Nat) : List IndexedNode :=
  let hits := vectorQuery store allowed topK
  dedupById (hits ++ expandAll store allowed hits) []

/-- Concatenation of a list of strings in order. -/
def concatStrings : List String → String
  | [] => ""
  | s :: rest => s ++ concatStrings rest

/-- Modelled from the spec: the Chat Orchestrator's outbound event stream
for one chat completion (sections 4.5 and 6; the orchestrator is a
backend component not present in the frontend sources).  Token events
are emitted in arrival order; a token-completion sentinel (a token event
with content "done", which the client-side handler in ChatInterface
explicitly ignores) is signaled before the citation events; citations
follow in order; the terminal sentinel ends the stream. -/
def chatCompletionStream (tokens : List String) (citations : List String) :
    List StreamEvent :=
  tokens.map (fun t => { type := "token", content := t }) ++
    [{ type := "token", content := "done" }] ++
    citations.map (fun c => { type := "citation", content := c }) ++
    [{ type := "done", content := "done" }]

/-- A fixed parse function used in concrete witness evaluations. -/
def sampleParse (s : String) : Option Nat :=
  if s = "one" then some 1 else if s = "two" then some 2 else none

/-- A frame parser that fails on every frame, used to witness the
malformed-frame case. -/
def noFrameParse : String → Option StreamEvent := fun _ => none

/-- A frame parser returning a fixed citation event with unparseable
content, used to witness the malformed-citation case. -/
def badCitationFrameParse : String → Option StreamEvent :=
  fun _ => some { type := "citation", content := "garbage" }

/-- The initial streaming state of ChatInterface: empty accumulators, no
messages loaded, nothing in flight. -/
def emptyChatState : ChatState Nat :=
  { assistantContentRef := "",
    assistantCitationsRef := [],
    chatMessages := none,
    assistantMessage := none,
    assistantMessageCitations := none,
    isLoading := false }

namespace ChatInterface

theorem processEvents_append (parse : String → Option α) (st : ChatState α)
    (l₁ l₂ : List StreamEvent) :
    processEvents parse st (l₁ ++ l₂) =
      match processEvents parse st l₁ with
      | Except.ok st₁ => processEvents parse st₁ l₂
      | Except.error msg => Except.error msg := by
  induction l₁ generalizing st with
  | nil => simp [processEvents]
  | cons e es ih =>
      simp only [List.cons_append, processEvents]
      cases onMessage parse st e with
      | ok st₁ => exact ih st₁
      | error msg => rfl

theorem onMessage_token (parse : String → Option α) (st : ChatState α)
    (e : StreamEvent) (hty : e.type = "token") (hct : e.content ≠ "done") :
    onMessage parse st e = Except.ok
      { st with
        assistantContentRef := st.assistantContentRef ++ e.content,
        assistantMessage := some
          { role := "assistant",
            content := st.assistantContentRef ++ e.content } } := by
  simp [onMessage, hty, hct]

theorem onMessage_token_done (parse : String → Option α) (st : ChatState α)
    (e : StreamEvent) (hty : e.type = "token") (hct : e.content = "done") :
    onMessage parse st e = Except.ok st := by
  simp [onMessage, hty, hct]

theorem onMessage_citation (parse : String → Option α) (st : ChatState α)
    (e : StreamEvent) (v : α) (hty : e.type ≠ "token")
    (hct : e.content ≠ "done") (hp : parse e.content = some v) :
    onMessage parse st e = Except.ok
      { st with
        assistantCitationsRef := st.assistantCitationsRef ++ [v],
        assistantMessageCitations :=
          some (st.assistantCitationsRef ++ [v]) } := by
  simp [onMessage, hty, hct, hp]

theorem onMessage_done (parse : String → Option α) (st : ChatState α)
    (e : StreamEvent) (hty : e.type ≠ "token") (hct : e.content = "done") :
    onMessage parse st e = Except.ok
      { st with
        chatMessages := some ((st.chatMessages.getD []) ++
          [{ role := "assistant",
             content := st.assistantContentRef,
             citations := some st.assistantCitationsRef }]),
        assistantMessageCitations := none,
        assistantMessage := none,
        isLoading := false,
        assistantContentRef := "",
        assistantCitationsRef := [] } := by
  simp [onMessage, hty, hct]

theorem processEvents_token_events (parse : String → Option α)
    (ts : List StreamEvent) (st : ChatState α)
    (h : ∀ e ∈ ts, e.type = "token" ∧ e.content ≠ "done") :
    ∃ st₁, processEvents parse st ts = Except.ok st₁
      ∧ st₁.assistantContentRef =
          st.assistantContentRef ++ concatStrings (ts.map StreamEvent.content)
      ∧ st₁.assistantCitationsRef = st.assistantCitationsRef
      ∧ st₁.chatMessages = st.chatMessages := by
  induction ts generalizing st with
  | nil =>
      exact ⟨st, rfl, (String.append_empty _).symm, rfl, rfl⟩
  | cons e es ih =>
      obtain ⟨hty, hct⟩ := h e (by simp)
      obtain ⟨st₁, h1, h2, h3, h4⟩ :=
        ih { st with
              assistantContentRef := st.assistantContentRef ++ e.content,
              assistantMessage := some
                { role := "assistant",
                  content := st.assistantContentRef ++ e.content } }
          (fun e' he' => h e' (by simp [he']))
      refine ⟨st₁, ?_, ?_, h3, h4⟩
      · simpa [processEvents, onMessage_token parse st e hty hct] using h1
      · simpa [concatStrings, String.append_assoc] using h2

theorem processEvents_citation_events (parse : String → Option α)
    (ces : List StreamEvent) (vs : List α) (st : ChatState α)
    (h : ∀ e ∈ ces, e.type ≠ "token" ∧ e.content ≠ "done")
    (hp : ces.map (fun e => parse e.content) = vs.map some) :
    ∃ st₁, processEvents parse st ces = Except.ok st₁
      ∧ st₁.assistantCitationsRef = st.assistantCitationsRef ++ vs
      ∧ st₁.assistantContentRef = st.assistantContentRef
      ∧ st₁.chatMessages = st.chatMessages := by
  induction ces generalizing vs st with
  | nil =>
      cases vs with
      | nil => exact ⟨st, rfl, by simp, rfl, rfl⟩
      | cons v vs' => simp at hp
  | cons e es ih =>
      cases vs with
      | nil => simp at hp
      | cons v vs' =>
          simp only [List.map_cons, List.cons.injEq] at hp
          obtain ⟨hty, hct⟩ := h e (by simp)
          obtain ⟨st₁, h1, h2, h3, h4⟩ :=
            ih vs'
              { st with
                assistantCitationsRef := st.assistantCitationsRef ++ [v],
                assistantMessageCitations :=
                  some (st.assistantCitationsRef ++ [v]) }
              (fun e' he' => h e' (by simp [he'])) hp.2
          refine ⟨st₁, ?_, ?_, h3, h4⟩
          · simpa [processEvents,
              onMessage_citation parse st e v hty hct hp.1] using h1
          · simpa [List.append_assoc] using h2

end ChatInterface

/-- Claim C2: for a handled stream of token events t1..tn (contents not
"done"), then citation events with JSON contents c1..cm (not "done"),
then one non-token event with content "done", exactly one assistant
message is appended to the chat message list, with content t1 ++ .. ++ tn
and citations [parse c1, .., parse cm] in arrival order, and the
streaming accumulators are reset to empty afterwards. -/
theorem stream_events_assemble_one_assistant_message
    {α : Type} (parse : String → Option α) (tks ces : List StreamEvent)
    (vs : List α) (dn : StreamEvent) (st : ChatState α)
    (hst1 : st.assistantContentRef = "")
    (hst2 : st.assistantCitationsRef = [])
    (htk : ∀ e ∈ tks, e.type = "token" ∧ e.content ≠ "done")
    (hce : ∀ e ∈ ces, e.type ≠ "token" ∧ e.content ≠ "done")
    (hp : ces.map (fun e => parse e.content) = vs.map some)
    (hdn1 : dn.type ≠ "token") (hdn2 : dn.content = "done") :
    ∃ stf, ChatInterface.processEvents parse st (tks ++ ces ++ [dn]) =
        Except.ok stf
      ∧ stf.chatMessages = some ((st.chatMessages.getD []) ++
          [{ role := "assistant",
             content := concatStrings (tks.map StreamEvent.content),
             citations := some vs }])
      ∧ stf.assistantContentRef = ""
      ∧ stf.assistantCitationsRef = []
      ∧ stf.assistantMessage = none
      ∧ stf.assistantMessageCitations = none
      ∧ stf.isLoading = false := by
  obtain ⟨st₁, e1, a1, a2, a3⟩ :=
    ChatInterface.processEvents_token_events parse tks st htk
  obtain ⟨st₂, e2, b1, b2, b3⟩ :=
    ChatInterface.processEvents_citation_events parse ces vs st₁ hce hp
  have hdone := ChatInterface.onMessage_done parse st₂ dn hdn1 hdn2
  have hrun : ChatInterface.processEvents parse st (tks ++ ces ++ [dn]) =
      Except.ok { st₂ with
        chatMessages := some ((st₂.chatMessages.getD []) ++
          [{ role := "assistant",
             content := st₂.assistantContentRef,
             citations := some st₂.assistantCitationsRef }]),
        assistantMessageCitations := none,
        assistantMessage := none,
        isLoading := false,
        assistantContentRef := "",
        assistantCitationsRef := [] } := by
    rw [List.append_assoc]
    simp only [ChatInterface.processEvents_append, e1, e2]
    simp [ChatInterface.processEvents, hdone]
  refine ⟨_, hrun, ?_, rfl, rfl, rfl, rfl, rfl⟩
  rw [b3, a3, b2, a1, hst1, b1, a2, hst2]
  simp [String.empty_append]

/-- Concrete run of the claim C2 theorem: two tokens, two citations and a
terminal event assemble exactly one assistant message. -/
theorem stream_events_assemble_one_assistant_message_witness :
    ∃ stf, ChatInterface.processEvents sampleParse emptyChatState
        ([{ type := "token", content := "Hel" },
          { type := "token", content := "lo" }] ++
         [{ type := "citation", content := "one" },
          { type := "citation", content := "two" }] ++
         [{ type := "citation", content := "done" }]) = Except.ok stf
      ∧ stf.chatMessages = some ((emptyChatState.chatMessages.getD []) ++
          [{ role := "assistant",
             content := concatStrings
               (([{ type := "token", content := "Hel" },
                  { type := "token", content := "lo" }] :
                    List StreamEvent).map StreamEvent.content),
             citations := some [1, 2] }])
      ∧ stf.assistantContentRef = ""
      ∧ stf.assistantCitationsRef = []
      ∧ stf.assistantMessage = none
      ∧ stf.assistantMessageCitations = none
      ∧ stf.isLoading = false :=
  stream_events_assemble_one_assistant_message sampleParse
    [{ type := "token", content := "Hel" },
     { type := "token", content := "lo" }]
    [{ type := "citation", content := "one" },
     { type := "citation", content := "two" }]
    [1, 2] { type := "citation", content := "done" } emptyChatState
    rfl rfl (by decide) (by decide) (by decide) (by decide) rfl

/-- Claim C1: over the chat transport, token events are emitted
incrementally in arrival order, token-completion is signaled before the
first citation event and citations form a separate ordered stream after
it, a terminal sentinel ends the stream - upon which the client
finalizes the assembled message - and every event is of the vocabulary
type token, citation or done.  The emitting side is modelled from the
spec (chatCompletionStream); the finalizing client is the embedded
ChatInterface handler. -/
theorem chat_stream_ordering_and_finalization
    {α : Type} (parse : String → Option α) (tokens citations : List String)
    (vs : List α) (st : ChatState α)
    (hst1 : st.assistantContentRef = "")
    (hst2 : st.assistantCitationsRef = [])
    (htok : ∀ t ∈ tokens, t ≠ "done")
    (hcit : ∀ c ∈ citations, c ≠ "done")
    (hp : citations.map parse = vs.map some) :
    (∀ e ∈ chatCompletionStream tokens citations,
        e.type = "token" ∨ e.type = "citation" ∨ e.type = "done") ∧
    (∃ post, chatCompletionStream tokens citations =
        tokens.map (fun t => { type := "token", content := t }) ++
          ({ type := "token", content := "done" } : StreamEvent) :: post ∧
        ∀ e ∈ post, e.type ≠ "token") ∧
    ((chatCompletionStream tokens citations).getLast? =
        some { type := "done", content := "done" }) ∧
    (∃ stf, ChatInterface.processEvents parse st
          (chatCompletionStream tokens citations) = Except.ok stf ∧
        stf.chatMessages = some ((st.chatMessages.getD []) ++
          [{ role := "assistant", content := concatStrings tokens,
             citations := some vs }]) ∧
        stf.assistantContentRef = "" ∧
        stf.assistantCitationsRef = []) := by
  refine ⟨?_, ?_, ?_, ?_⟩
  · intro e he
    simp only [chatCompletionStream, List.mem_append, List.mem_map,
      List.mem_singleton] at he
    rcases he with ((⟨t, _, rfl⟩ | rfl) | ⟨c, _, rfl⟩) | rfl
    · exact Or.inl rfl
    · exact Or.inl rfl
    · exact Or.inr (Or.inl rfl)
    · exact Or.inr (Or.inr rfl)
  · refine ⟨citations.map (fun c => { type := "citation", content := c }) ++
      [{ type := "done", content := "done" }], by
        simp [chatCompletionStream], ?_⟩
    intro e he
    simp only [List.mem_append, List.mem_map, List.mem_singleton] at he
    rcases he with ⟨c, _, rfl⟩ | rfl
    · simp
    · simp
  · simp only [chatCompletionStream]
    exact List.getLast?_concat _
  · obtain ⟨st₁, e1, a1, a2, a3⟩ :=
      ChatInterface.processEvents_token_events parse
        (tokens.map (fun t => { type := "token", content := t })) st
        (by
          intro e he
          simp only [List.mem_map] at he
          obtain ⟨t, ht, rfl⟩ := he
          exact ⟨rfl, htok t ht⟩)
    obtain ⟨st₂, e2, b1, b2, b3⟩ :=
      ChatInterface.processEvents_citation_events parse
        (citations.map (fun c => { type := "citation", content := c })) vs st₁
        (by
          intro e he
          simp only [List.mem_map] at he
          obtain ⟨c, hc, rfl⟩ := he
          exact ⟨by simp, hcit c hc⟩)
        (by simpa [List.map_map, Function.comp] using hp)
    have hmid : ChatInterface.processEvents parse st₁
        [{ type := "token", content := "done" }] = Except.ok st₁ := by
      simp [ChatInterface.processEvents,
        ChatInterface.onMessage_token_done parse st₁
          { type := "token", content := "done" } rfl rfl]
    have hdone := ChatInterface.onMessage_done parse st₂
      { type := "done", content := "done" } (by simp) rfl
    have hrun : ChatInterface.processEvents parse st
        (chatCompletionStream tokens citations) =
        Except.ok { st₂ with
          chatMessages := some ((st₂.chatMessages.getD []) ++
            [{ role := "assistant",
               content := st₂.assistantContentRef,
               citations := some st₂.assistantCitationsRef }]),
          assistantMessageCitations := none,
          assistantMessage := none,
          isLoading := false,
          assistantContentRef := "",
          assistantCitationsRef := [] } := by
      simp only [chatCompletionStream, List.append_assoc]
      simp only [ChatInterface.processEvents_append, e1, hmid, e2]
      simp [ChatInterface.processEvents, hdone]
    refine ⟨_, hrun, ?_, rfl, rfl⟩
    rw [b3, a3, b2, a1, hst1, b1, a2, hst2]
    simp [String.empty_append, List.map_map, Function.comp]
    have hcomp : (StreamEvent.content ∘ fun t =>
        ({ type := "token", content := t } : StreamEvent)) = id := rfl
    rw [hcomp, List.map_id]

/-- Concrete run of the claim C1 theorem on a two-token, one-citation
stream. -/
theorem chat_stream_ordering_and_finalization_witness :
    (∀ e ∈ chatCompletionStream ["Hi", " there"] ["one"],
        e.type = "token" ∨ e.type = "citation" ∨ e.type = "done") ∧
    (∃ post, chatCompletionStream ["Hi", " there"] ["one"] =
        (["Hi", " there"].map
          (fun t => { type := "token", content := t })) ++
          ({ type := "token", content := "done" } : StreamEvent) :: post ∧
        ∀ e ∈ post, e.type ≠ "token") ∧
    ((chatCompletionStream ["Hi", " there"] ["one"]).getLast? =
        some { type := "done", content := "done" }) ∧
    (∃ stf, ChatInterface.processEvents sampleParse emptyChatState
          (chatCompletionStream ["Hi", " there"] ["one"]) = Except.ok stf ∧
        stf.chatMessages = some ((emptyChatState.chatMessages.getD []) ++
          [{ role := "assistant",
             content := concatStrings ["Hi", " there"],
             citations := some [1] }]) ∧
        stf.assistantContentRef = "" ∧
        stf.assistantCitationsRef = []) :=
  chat_stream_ordering_and_finalization sampleParse ["Hi", " there"] ["one"]
    [1] emptyChatState rfl rfl (by decide) (by decide) (by decide)

/-- Claim C3: a chat completion query frame is sent exactly when the
query text is nonempty, and every sent frame carries precisely the chat
id, the query text, the selected model (name, secret slug, provider) and
the selected integration ids - the fields of ChatCompletionInput. -/
theorem query_message_shape {α : Type} (ctx : ChatInterfaceCtx)
    (st : ChatState α) (inp : String) (ld : Bool) (q : String) :
    ((ChatInterface.handleSend ctx st inp ld q).sent = none ↔ q = "") ∧
    (∀ m, (ChatInterface.handleSend ctx st inp ld q).sent = some m →
      m = { chat_id := ctx.id,
            chat_model_name := ctx.selectedChatModelName,
            chat_model_secret_slug := ctx.selectedChatModelSecretName,
            chat_model_provider := ctx.selectedChatModelProvider,
            query := q,
            integration_ids := ctx.selectedChatIntegrations }) := by
  constructor
  · by_cases hq : q = "" <;> simp [ChatInterface.handleSend, hq]
  · intro m hm
    by_cases hq : q = ""
    · simp [ChatInterface.handleSend, hq] at hm
    · simp [ChatInterface.handleSend, hq] at hm
      exact hm.symm

/-- Concrete run of the claim C3 theorem: an empty query sends nothing,
and a nonempty query sends the full chat completion input. -/
theorem query_message_shape_witness :
    (ChatInterface.handleSend
        { id := "c1", selectedChatModelName := "gpt",
          selectedChatModelSecretName := "s",
          selectedChatModelProvider := "openai",
          selectedChatIntegrations := some ["i1", "i2"] }
        emptyChatState "" false "").sent = none ∧
    ({ chat_id := "c1", chat_model_name := "gpt",
       chat_model_secret_slug := "s", chat_model_provider := "openai",
       query := "who worked on X",
       integration_ids := some ["i1", "i2"] } : ChatCompletionInput) =
      { chat_id := "c1", chat_model_name := "gpt",
        chat_model_secret_slug := "s", chat_model_provider := "openai",
        query := "who worked on X",
        integration_ids := some ["i1", "i2"] } :=
  ⟨(query_message_shape
      { id := "c1", selectedChatModelName := "gpt",
        selectedChatModelSecretName := "s",
        selectedChatModelProvider := "openai",
        selectedChatIntegrations := some ["i1", "i2"] }
      emptyChatState "" false "").1.mpr rfl,
   (query_message_shape
      { id := "c1", selectedChatModelName := "gpt",
        selectedChatModelSecretName := "s",
        selectedChatModelProvider := "openai",
        selectedChatIntegrations := some ["i1", "i2"] }
      emptyChatState "" false "who worked on X").2 _ rfl⟩

/-- Claim C9: a frame whose payload is not valid JSON, and a citation
event whose content is not valid JSON, leave the whole accumulated chat
state exactly unchanged - the installed onmessage handler catches the
exception and only logs it. -/
theorem malformed_frames_leave_state_unchanged :
    (∀ (α : Type) (parseFrame : String → Option StreamEvent)
        (parse : String → Option α) (st : ChatState α) (raw : String),
      parseFrame raw = none →
        ChatWebSocketService.onmessage parseFrame parse st raw = st) ∧
    (∀ (α : Type) (parseFrame : String → Option StreamEvent)
        (parse : String → Option α) (st : ChatState α) (raw : String)
        (e : StreamEvent),
      parseFrame raw = some e → e.type ≠ "token" → e.content ≠ "done" →
        parse e.content = none →
        ChatWebSocketService.onmessage parseFrame parse st raw = st) := by
  constructor
  · intro α parseFrame parse st raw h
    simp [ChatWebSocketService.onmessage, h]
  · intro α parseFrame parse st raw e hf hty hct hp
    simp [ChatWebSocketService.onmessage, hf, ChatInterface.onMessage,
      hty, hct, hp]

/-- Concrete run of the claim C9 theorem: an unparseable frame and a
citation event with unparseable content both leave the initial state
unchanged. -/
theorem malformed_frames_leave_state_unchanged_witness :
    ChatWebSocketService.onmessage noFrameParse sampleParse emptyChatState
        "not json" = emptyChatState ∧
    ChatWebSocketService.onmessage badCitationFrameParse sampleParse
        emptyChatState "frame" = emptyChatState :=
  ⟨malformed_frames_leave_state_unchanged.1 Nat noFrameParse sampleParse
      emptyChatState "not json" rfl,
   malformed_frames_leave_state_unchanged.2 Nat badCitationFrameParse
      sampleParse emptyChatState "frame"
      { type := "citation", content := "garbage" } rfl (by decide)
      (by decide) rfl⟩

/-- Claim C10: both websocket send methods transmit the serialized
message exactly when the underlying socket exists and its readyState is
OPEN; in every other case the state is returned unchanged - nothing is
transmitted, nothing is buffered and no error is raised. -/
theorem send_transmits_iff_open :
    (∀ (μ : Type) (stringify : μ → String) (w : WebSocketConn) (d : μ),
      w.readyState = WsReadyState.OPEN →
        ChatWebSocketService.send stringify (some w) d =
          some { w with wire := w.wire ++ [stringify d] } ∧
        WebSocketService.send stringify (some w) d =
          some { w with wire := w.wire ++ [stringify d] }) ∧
    (∀ (μ : Type) (stringify : μ → String) (w : WebSocketConn) (d : μ),
      w.readyState ≠ WsReadyState.OPEN →
        ChatWebSocketService.send stringify (some w) d = some w ∧
        WebSocketService.send stringify (some w) d = some w) ∧
    (∀ (μ : Type) (stringify : μ → String) (d : μ),
      ChatWebSocketService.send stringify none d = none ∧
      WebSocketService.send stringify none d = none) := by
  refine ⟨?_, ?_, ?_⟩
  · intro μ stringify w d h
    exact ⟨by simp [ChatWebSocketService.send, h],
      by simp [WebSocketService.send, h]⟩
  · intro μ stringify w d h
    exact ⟨by simp [ChatWebSocketService.send, h],
      by simp [WebSocketService.send, h]⟩
  · intro μ stringify d
    exact ⟨rfl, rfl⟩

/-- Concrete run of the claim C10 theorem: an OPEN socket transmits the
frame, a CONNECTING socket silently drops it. -/
theorem send_transmits_iff_open_witness :
    (ChatWebSocketService.send (fun s => s)
        (some { readyState := WsReadyState.OPEN, wire := [] }) "q" =
      some { readyState := WsReadyState.OPEN, wire := ["q"] }) ∧
    (ChatWebSocketService.send (fun s => s)
        (some { readyState := WsReadyState.CONNECTING, wire := [] }) "q" =
      some { readyState := WsReadyState.CONNECTING, wire := [] }) :=
  ⟨(send_transmits_iff_open.1 String (fun s => s)
      { readyState := WsReadyState.OPEN, wire := [] } "q" rfl).1,
   (send_transmits_iff_open.2.1 String (fun s => s)
      { readyState := WsReadyState.CONNECTING, wire := [] } "q"
      (by decide)).1⟩

theorem lookup_append_of_some (l₁ l₂ : List (String × Nat)) (r : String)
    (n : Nat) (h : l₁.lookup r = some n) : (l₁ ++ l₂).lookup r = some n := by
  induction l₁ with
  | nil => simp [List.lookup] at h
  | cons p t ih =>
      rcases p with ⟨k, v⟩
      cases hk : (r == k) with
      | true => simpa [List.lookup, hk] using h
      | false =>
          simp only [List.lookup, hk] at h
          simpa [List.lookup, hk] using ih h

theorem lookup_append_of_none (l₁ l₂ : List (String × Nat)) (r : String)
    (h : l₁.lookup r = none) : (l₁ ++ l₂).lookup r = l₂.lookup r := by
  induction l₁ with
  | nil => simp
  | cons p t ih =>
      rcases p with ⟨k, v⟩
      cases hk : (r == k) with
      | true => simp [List.lookup, hk] at h
      | false =>
          simp only [List.lookup, hk] at h
          simpa [List.lookup, hk] using ih h

theorem citationNumbersAux_get?_of_lookup (refs : List String) :
    ∀ (table : List (String × Nat)) (r : String) (n : Nat) (i : Nat),
      table.lookup r = some n → refs[i]? = some r →
        (citationNumbersAux table refs)[i]? = some n := by
  induction refs with
  | nil => intro table r n i h hi; simp at hi
  | cons s rs ih =>
      intro table r n i h hi
      cases i with
      | zero =>
          simp only [List.getElem?_cons_zero, Option.some.injEq] at hi
          subst hi
          simp [citationNumbersAux, h]
      | succ k =>
          simp only [List.getElem?_cons_succ] at hi
          cases hl : table.lookup s with
          | some m =>
              simpa [citationNumbersAux, hl] using ih table r n k h hi
          | none =>
              have h' : (table ++ [(s, table.length + 1)]).lookup r = some n :=
                lookup_append_of_some _ _ _ _ h
              simpa [citationNumbersAux, hl] using ih _ r n k h' hi

theorem citationNumbersAux_reuse (refs : List String) :
    ∀ (table : List (String × Nat)) (i j : Nat) (r : String),
      refs[i]? = some r → refs[j]? = some r →
        (citationNumbersAux table refs)[i]? =
          (citationNumbersAux table refs)[j]? := by
  induction refs with
  | nil => intro table i j r hi hj; simp at hi
  | cons s rs ih =>
      intro table i j r hi hj
      cases i with
      | zero =>
          cases j with
          | zero => rfl
          | succ k =>
              simp only [List.getElem?_cons_zero, Option.some.injEq] at hi
              subst hi
              simp only [List.getElem?_cons_succ] at hj
              cases hl : table.lookup s with
              | some m =>
                  have hk := citationNumbersAux_get?_of_lookup rs table s m k
                    hl hj
                  simp [citationNumbersAux, hl, hk]
              | none =>
                  have h' : (table ++ [(s, table.length + 1)]).lookup s =
                      some (table.length + 1) := by
                    rw [lookup_append_of_none _ _ _ hl]
                    simp [List.lookup]
                  have hk := citationNumbersAux_get?_of_lookup rs _ s
                    (table.length + 1) k h' hj
                  simp [citationNumbersAux, hl, hk]
      | succ k =>
          cases j with
          | zero =>
              simp only [List.getElem?_cons_zero, Option.some.injEq] at hj
              subst hj
              simp only [List.getElem?_cons_succ] at hi
              cases hl : table.lookup s with
              | some m =>
                  have hk := citationNumbersAux_get?_of_lookup rs table s m k
                    hl hi
                  simp [citationNumbersAux, hl, hk]
              | none =>
                  have h' : (table ++ [(s, table.length + 1)]).lookup s =
                      some (table.length + 1) := by
                    rw [lookup_append_of_none _ _ _ hl]
                    simp [List.lookup]
                  have hk := citationNumbersAux_get?_of_lookup rs _ s
                    (table.length + 1) k h' hi
                  simp [citationNumbersAux, hl, hk]
          | succ k' =>
              simp only [List.getElem?_cons_succ] at hi hj
              cases hl : table.lookup s with
              | some m =>
                  simpa [citationNumbersAux, hl] using ih table k k' r hi hj
              | none =>
                  simpa [citationNumbersAux, hl] using ih _ k k' r hi hj

/-- Claim C5: citation numbers are assigned in first-use order of the
generated answer and a node referenced again reuses its number: any two
positions referencing the same node receive the same number, and the
answer A, B, A, C receives the numbers 1, 2, 1, 3. -/
theorem citation_numbers_first_use_order :
    (∀ (refs : List String) (i j : Nat) (r : String),
      refs[i]? = some r → refs[j]? = some r →
        (citationNumbers refs)[i]? = (citationNumbers refs)[j]?) ∧
    citationNumbers ["A", "B", "A", "C"] = [1, 2, 1, 3] := by
  constructor
  · intro refs i j r hi hj
    exact citationNumbersAux_reuse refs [] i j r hi hj
  · decide

/-- Concrete run of the claim C5 theorem: in the answer A, B, A, C the
third reference reuses the number of the first. -/
theorem citation_numbers_first_use_order_witness :
    (citationNumbers ["A", "B", "A", "C"])[0]? =
      (citationNumbers ["A", "B", "A", "C"])[2]? :=
  citation_numbers_first_use_order.1 ["A", "B", "A", "C"] 0 2 "A"
    (by decide) (by decide)

/-- Claim C6: the sync status of an Integration or ParentGroup is always
one of the five enum values, and the status transitions of a sync cycle
follow NOT_STARTED to QUEUED to RUNNING to SUCCESS or FAILED, with
SUCCESS or FAILED back to QUEUED on the next enqueue; SUCCESS and FAILED
are reachable only from RUNNING (RUNNING is never skipped) and RUNNING
only from QUEUED.  The enum is embedded from types.ts; the transition
relation is modelled from the spec. -/
theorem sync_status_enum_and_state_machine :
    (∀ r : IntegrationResponseModel,
      r.status = IntegrationStatus.NOT_STARTED ∨
      r.status = IntegrationStatus.QUEUED ∨
      r.status = IntegrationStatus.RUNNING ∨
      r.status = IntegrationStatus.SUCCESS ∨
      r.status = IntegrationStatus.FAILED) ∧
    (∀ p : ParentGroupDataResponseModel,
      p.status = IntegrationStatus.NOT_STARTED ∨
      p.status = IntegrationStatus.QUEUED ∨
      p.status = IntegrationStatus.RUNNING ∨
      p.status = IntegrationStatus.SUCCESS ∨
      p.status = IntegrationStatus.FAILED) ∧
    nextStatuses IntegrationStatus.NOT_STARTED = [IntegrationStatus.QUEUED] ∧
    nextStatuses IntegrationStatus.QUEUED = [IntegrationStatus.RUNNING] ∧
    nextStatuses IntegrationStatus.RUNNING =
      [IntegrationStatus.SUCCESS, IntegrationStatus.FAILED] ∧
    nextStatuses IntegrationStatus.SUCCESS = [IntegrationStatus.QUEUED] ∧
    nextStatuses IntegrationStatus.FAILED = [IntegrationStatus.QUEUED] ∧
    (∀ s s' : IntegrationStatus, s' ∈ nextStatuses s →
      (s' = IntegrationStatus.SUCCESS ∨ s' = IntegrationStatus.FAILED) →
      s = IntegrationStatus.RUNNING) ∧
    (∀ s : IntegrationStatus,
      IntegrationStatus.RUNNING ∈ nextStatuses s →
      s = IntegrationStatus.QUEUED) := by
  refine ⟨?_, ?_, rfl, rfl, rfl, rfl, rfl, ?_, ?_⟩
  · intro r
    cases h : r.status <;> simp
  · intro p
    cases h : p.status <;> simp
  · intro s s' h1 h2
    cases s <;> cases s' <;> simp_all [nextStatuses]
  · intro s h
    cases s <;> simp_all [nextStatuses]

/-- Concrete run of the claim C6 theorem: SUCCESS is entered only from
RUNNING, and RUNNING only from QUEUED. -/
theorem sync_status_enum_and_state_machine_witness :
    IntegrationStatus.RUNNING = IntegrationStatus.RUNNING ∧
    IntegrationStatus.QUEUED = IntegrationStatus.QUEUED :=
  ⟨sync_status_enum_and_state_machine.2.2.2.2.2.2.2.1
      IntegrationStatus.RUNNING IntegrationStatus.SUCCESS (by decide)
      (Or.inl rfl),
   sync_status_enum_and_state_machine.2.2.2.2.2.2.2.2
      IntegrationStatus.QUEUED (by decide)⟩

/-- Claim C7 counterexample: the client Node type (TextNode in types.ts)
does not contain a content_hash field - its field list differs from the
spec's asserted field set at the last position, which is reactions. -/
theorem textnode_missing_content_hash :
    "content_hash" ∉ TextNode.fieldNames ∧
    "content_hash" ∈ specNodeFieldNames ∧
    "reactions" ∈ TextNode.fieldNames ∧
    TextNode.fieldNames ≠ specNodeFieldNames := by
  decide

/-- Claim C7 (amended): every client-side Node (TextNode) has exactly the
fields id, labels, source, ts, url, display_name and reactions - the
seven declared fields determine the value, and the field list carries
reactions in place of the spec's content_hash. -/
theorem textnode_exact_fields (a b : TextNode)
    (h1 : a.id = b.id) (h2 : a.labels = b.labels) (h3 : a.source = b.source)
    (h4 : a.ts = b.ts) (h5 : a.url = b.url)
    (h6 : a.display_name = b.display_name)
    (h7 : a.reactions = b.reactions) :
    TextNode.fieldNames =
      ["id", "labels", "source", "ts", "url", "display_name", "reactions"] ∧
    a = b := by
  constructor
  · rfl
  · cases a
    cases b
    simp_all

/-- Concrete run of the amended claim C7 theorem on a sample node. -/
theorem textnode_exact_fields_witness :
    TextNode.fieldNames =
      ["id", "labels", "source", "ts", "url", "display_name", "reactions"] ∧
    ({ id := "n1", labels := ["SlackMessage"], source := "slack",
       ts := "t", url := "u", display_name := "d", reactions := "" } :
        TextNode) =
      { id := "n1", labels := ["SlackMessage"], source := "slack",
        ts := "t", url := "u", display_name := "d", reactions := "" } :=
  textnode_exact_fields
    { id := "n1", labels := ["SlackMessage"], source := "slack",
      ts := "t", url := "u", display_name := "d", reactions := "" }
    { id := "n1", labels := ["SlackMessage"], source := "slack",
      ts := "t", url := "u", display_name := "d", reactions := "" }
    rfl rfl rfl rfl rfl rfl rfl

/-- Claim C8: concurrent claim attempts on a QUEUED ParentGroup, however
many, result in exactly one worker performing the QUEUED to RUNNING
compare-and-set; every losing attempt leaves the status untouched, a CAS
can succeed only from QUEUED, and once RUNNING no further attempt ever
claims.  Modelled from the spec: the CAS serializes concurrent attempts
into a sequence of atomic operations. -/
theorem at_most_one_worker_claims :
    (∀ n : Nat, 1 ≤ n →
      runClaims IntegrationStatus.QUEUED n = (IntegrationStatus.RUNNING, 1)) ∧
    (∀ n : Nat,
      runClaims IntegrationStatus.RUNNING n =
        (IntegrationStatus.RUNNING, 0)) ∧
    (∀ (s r : IntegrationStatus), casClaim s = (r, true) →
      s = IntegrationStatus.QUEUED ∧ r = IntegrationStatus.RUNNING) := by
  have hrun : ∀ n : Nat,
      runClaims IntegrationStatus.RUNNING n =
        (IntegrationStatus.RUNNING, 0) := by
    intro n
    induction n with
    | zero => rfl
    | succ m ih => simp [runClaims, casClaim, ih]
  refine ⟨?_, hrun, ?_⟩
  · intro n hn
    cases n with
    | zero => omega
    | succ m => simp [runClaims, casClaim, hrun m]
  · intro s r h
    cases s <;> simp_all [casClaim]

/-- Concrete run of the claim C8 theorem: three concurrent attempts on a
QUEUED group yield exactly one successful claim. -/
theorem at_most_one_worker_claims_witness :
    runClaims IntegrationStatus.QUEUED 3 = (IntegrationStatus.RUNNING, 1) :=
  at_most_one_worker_claims.1 3 (by decide)

theorem mem_dedupById (l : List IndexedNode) :
    ∀ (seen : List String) (n : IndexedNode),
      n ∈ dedupById l seen → n ∈ l := by
  induction l with
  | nil => intro seen n h; simp [dedupById] at h
  | cons m rest ih =>
      intro seen n h
      simp only [dedupById] at h
      by_cases hm : m.node_id ∈ seen
      · simp only [if_pos hm] at h
        exact List.mem_cons_of_mem m (ih seen n h)
      · simp only [if_neg hm, List.mem_cons] at h
        rcases h with rfl | h
        · exact List.mem_cons_self n rest
        · exact List.mem_cons_of_mem m (ih _ n h)

theorem mem_graphNeighbors_allowed (store : RetrievalStore)
    (allowed : List String) (seed n : IndexedNode)
    (h : n ∈ graphNeighbors store allowed seed) :
    n.integration_id ∈ allowed := by
  simp only [graphNeighbors, List.mem_filter, Bool.and_eq_true,
    decide_eq_true_eq] at h
  exact h.2.2

theorem mem_expandAll_allowed (store : RetrievalStore)
    (allowed : List String) (hits : List IndexedNode) (n : IndexedNode)
    (h : n ∈ expandAll store allowed hits) : n.integration_id ∈ allowed := by
  induction hits with
  | nil => simp [expandAll] at h
  | cons seed rest ih =>
      simp only [expandAll, List.mem_append] at h
      rcases h with h | h
      · exact mem_graphNeighbors_allowed store allowed seed n h
      · exact ih h

theorem mem_vectorQuery_allowed (store : RetrievalStore)
    (allowed : List String) (topK : Nat) (n : IndexedNode)
    (h : n ∈ vectorQuery store allowed topK) :
    n.integration_id ∈ allowed := by
  have h' := List.take_subset topK _ h
  simp only [List.mem_filter, decide_eq_true_eq] at h'
  exact h'.2

/-- Claim C4: retrieval is restricted to the allowed integrations - no
query result ever contains a node from an unselected integration, two
runs over stores that agree on the allowed integrations' content return
the same candidates, and every chat completion request carries the
currently selected integration ids as its filter.  The retriever is
modelled from the spec; the request builder is the embedded handleSend. -/
theorem retrieval_restricted_to_allowed_integrations :
    (∀ (store : RetrievalStore) (allowed : List String) (topK : Nat)
        (n : IndexedNode),
      n ∈ retrieve store allowed topK → n.integration_id ∈ allowed) ∧
    (∀ (s₁ s₂ : RetrievalStore) (allowed : List String) (topK : Nat),
      s₁.vectorIndex.filter (fun n => decide (n.integration_id ∈ allowed)) =
        s₂.vectorIndex.filter
          (fun n => decide (n.integration_id ∈ allowed)) →
      s₁.edges = s₂.edges →
      retrieve s₁ allowed topK = retrieve s₂ allowed topK) ∧
    (∀ (α : Type) (ctx : ChatInterfaceCtx) (st : ChatState α)
        (inp : String) (ld : Bool) (q : String) (m : ChatCompletionInput),
      (ChatInterface.handleSend ctx st inp ld q).sent = some m →
        m.integration_ids = ctx.selectedChatIntegrations) := by
  refine ⟨?_, ?_, ?_⟩
  · intro store allowed topK n h
    have h' := mem_dedupById _ _ _ h
    simp only [List.mem_append] at h'
    rcases h' with h' | h'
    · exact mem_vectorQuery_allowed store allowed topK n h'
    · exact mem_expandAll_allowed store allowed _ n h'
  · intro s₁ s₂ allowed topK hv he
    have hvq : vectorQuery s₁ allowed topK = vectorQuery s₂ allowed topK := by
      simp only [vectorQuery, hv]
    have hgn : ∀ seed, graphNeighbors s₁ allowed seed =
        graphNeighbors s₂ allowed seed := by
      intro seed
      have split : ∀ s : RetrievalStore, graphNeighbors s allowed seed =
          (s.vectorIndex.filter
            (fun m => decide (m.integration_id ∈ allowed))).filter
            (fun m => decide ((seed.node_id, m.node_id) ∈ s.edges)) := by
        intro s
        rw [graphNeighbors, List.filter_filter]
      rw [split s₁, split s₂, hv, he]
    have hex : ∀ hs, expandAll s₁ allowed hs = expandAll s₂ allowed hs := by
      intro hs
      induction hs with
      | nil => rfl
      | cons seed rest ih => simp only [expandAll, hgn seed, ih]
    rw [retrieve, retrieve, hvq, hex]
  · intro α ctx st inp ld q m hm
    by_cases hq : q = ""
    · simp [ChatInterface.handleSend, hq] at hm
    · simp [ChatInterface.handleSend, hq] at hm
      rw [← hm]

/-- Concrete run of the claim C4 theorem: an allowed node that is
retrieved belongs to an allowed integration, two stores differing only
in an unselected integration's node retrieve the same candidates, and a
sent request carries the selected integration ids. -/
theorem retrieval_restricted_to_allowed_integrations_witness :
    ({ node_id := "n1", integration_id := "i1", payload := "a" } :
        IndexedNode).integration_id ∈ ["i1"] ∧
    retrieve
        { vectorIndex :=
            [{ node_id := "n1", integration_id := "i1", payload := "a" },
             { node_id := "n2", integration_id := "other", payload := "p" }],
          edges := [("n1", "n2")] } ["i1"] 5 =
      retrieve
        { vectorIndex :=
            [{ node_id := "n1", integration_id := "i1", payload := "a" }],
          edges := [("n1", "n2")] } ["i1"] 5 ∧
    ({ chat_id := "c1", chat_model_name := "gpt",
       chat_model_secret_slug := "s", chat_model_provider := "openai",
       query := "q", integration_ids := some ["i1"] } :
        ChatCompletionInput).integration_ids = some ["i1"] :=
  ⟨retrieval_restricted_to_allowed_integrations.1
      { vectorIndex :=
          [{ node_id := "n1", integration_id := "i1", payload := "a" },
           { node_id := "n2", integration_id := "other", payload := "p" }],
        edges := [("n1", "n2")] } ["i1"] 5
      { node_id := "n1", integration_id := "i1", payload := "a" }
      (by decide),
   retrieval_restricted_to_allowed_integrations.2.1
      { vectorIndex :=
          [{ node_id := "n1", integration_id := "i1", payload := "a" },
           { node_id := "n2", integration_id := "other", payload := "p" }],
        edges := [("n1", "n2")] }
      { vectorIndex :=
          [{ node_id := "n1", integration_id := "i1", payload := "a" }],
        edges := [("n1", "n2")] } ["i1"] 5 (by decide) rfl,
   retrieval_restricted_to_allowed_integrations.2.2 Nat
      { id := "c1", selectedChatModelName := "gpt",
        selectedChatModelSecretName := "s",
        selectedChatModelProvider := "openai",
        selectedChatIntegrations := some ["i1"] }
      emptyChatState "" false "q"
      { chat_id := "c1", chat_model_name := "gpt",
        chat_model_secret_slug := "s", chat_model_provider := "openai",
        query := "q", integration_ids := some ["i1"] } rfl⟩
